import Mathlib

/-!
Verification of the split-screen video planner (`src/predict.py`).

The Python module is shallowly embedded: pure helpers become Lean
functions over `ℤ`/`ℚ`/`String`; the ffmpeg filter graph and command are
represented structurally (each record field corresponds to one
`cmd.extend` segment of the source, in source order); the external
`subprocess.run` calls are oracles passed in as explicit parameters.
Python semantics notes: `int()` on a positive value is `Int.floor`
(modelled by `pytrunc`, truncation towards zero), `//` is floor
division (`Int.fdiv`), `%` on `int` agrees with `Int.emod`.
-/

set_option allowUnsafeReducibility true in
attribute [semireducible] Rat.add Rat.mul Rat.sub Rat.inv Rat.div

/-- Constant `DEFAULT_FPS = 30` from predict.py. -/
def DEFAULT_FPS : ℕ := 30

/-- Constant `LANDSCAPE_WIDTH = 1920`. -/
def LANDSCAPE_WIDTH : ℤ := 1920

/-- Constant `LANDSCAPE_HEIGHT = 1080`. -/
def LANDSCAPE_HEIGHT : ℤ := 1080

/-- Constant `PORTRAIT_WIDTH = 1080`. -/
def PORTRAIT_WIDTH : ℤ := 1080

/-- Constant `PORTRAIT_HEIGHT = 1920`. -/
def PORTRAIT_HEIGHT : ℤ := 1920

/-- Constant `DEFAULT_AUDIO_BITRATE = "128k"`. -/
def DEFAULT_AUDIO_BITRATE : String := "128k"

/-- Constant `FFMPEG_TIMEOUT = 600` (seconds, bounds each encoder attempt). -/
def FFMPEG_TIMEOUT : ℕ := 600

/-- Python `int()` applied to a rational: truncation towards zero
(`q.den` is positive, so this is the integer quotient truncated
towards zero). -/
def pytrunc (q : ℚ) : ℤ := q.num.tdiv q.den

/-- Python floor division `//` on integers. -/
def pyFloorDiv (a b : ℤ) : ℤ := Int.fdiv a b

/-- Python truthiness of an `Optional[str]`: `None` and the empty string
are falsy, every other string is truthy. -/
def pyTruthy (s? : Option String) : Bool :=
  match s? with
  | none => false
  | some s => !(s.data.isEmpty)

/-- The metadata dictionary returned by `VideoProcessor.get_video_info`:
keys `width`, `height`, `duration`, `fps`, `has_audio`. -/
structure VideoInfo where
  width : ℤ
  height : ℤ
  duration : ℚ
  fps : ℚ
  has_audio : Bool
deriving DecidableEq, Repr

/-- The dictionary returned by `_calculate_layout_dimensions`: keys
`output_width`, `output_height`, `video_width`, `video_height`,
`layout_type`. -/
structure LayoutDims where
  output_width : ℤ
  output_height : ℤ
  video_width : ℤ
  video_height : ℤ
  layout_type : String
deriving DecidableEq, Repr

namespace VideoProcessor

/-- `VideoProcessor._make_even`: `value if value % 2 == 0 else value - 1`. -/
def make_even (value : ℤ) : ℤ :=
  if value % 2 = 0 then value else value - 1

/-- `VideoProcessor._calculate_layout_dimensions`: fixed standard-frame
geometry keyed only on whether the layout string equals
`"16:9 Side by side"`; every other layout string takes the else
(`9:16 Top & Bottom`) branch. -/
def calculate_layout_dimensions (video1_info video2_info : VideoInfo)
    (layout : String) : LayoutDims :=
  if layout = "16:9 Side by side" then
    { output_width := LANDSCAPE_WIDTH
      output_height := LANDSCAPE_HEIGHT
      video_width := make_even (pyFloorDiv LANDSCAPE_WIDTH 2)
      video_height := make_even LANDSCAPE_HEIGHT
      layout_type := "horizontal" }
  else
    { output_width := PORTRAIT_WIDTH
      output_height := PORTRAIT_HEIGHT
      video_width := make_even PORTRAIT_WIDTH
      video_height := make_even (pyFloorDiv PORTRAIT_HEIGHT 2)
      layout_type := "vertical" }

end VideoProcessor

/-- The crop/scale stage emitted by `_build_crop_scale_filter` for one
input, in structural form: `crop = some (w, h, x, y)` stands for the
`crop=w:h:x:y,` prefix of the rendered filter string, and the scale
fields stand for the trailing
`scale=W:H:flags=fast_bilinear,fps=N[label]` part (crop, when present,
is applied before the scale). -/
structure CropScaleFilter where
  source : String
  crop : Option (ℤ × ℤ × ℤ × ℤ)
  scale_width : ℤ
  scale_height : ℤ
  fps : ℕ
  output_label : String
deriving DecidableEq, Repr

/-- One `;`-separated entry of the `filters` list assembled by
`build_filter_complex`: a `loop=loop=-1:size=32767:start=0` step
relabelling `source` to `output_label`, a crop/scale stage, or the final
`hstack=inputs=2[output]` / `vstack=inputs=2[output]` combinator. -/
inductive FilterStep where
  | loop (source output_label : String)
  | cropScale (f : CropScaleFilter)
  | hstack
  | vstack
deriving DecidableEq, Repr

namespace VideoProcessor

/-- `VideoProcessor._build_crop_scale_filter`: skip the crop when the
input aspect is within 0.01 of the target aspect, otherwise emit a
centered crop (width-cropping when the input is relatively wider,
height-cropping when relatively taller) whose four values are made even,
followed by the scale to the target cell. -/
def build_crop_scale_filter (source : String) (video_info : VideoInfo)
    (target_width target_height : ℤ) (output_label : String) : CropScaleFilter :=
  let input_width := video_info.width
  let input_height := video_info.height
  let input_aspect : ℚ := (input_width : ℚ) / (input_height : ℚ)
  let target_aspect : ℚ := (target_width : ℚ) / (target_height : ℚ)
  if |input_aspect - target_aspect| < 1 / 100 then
    { source := source, crop := none, scale_width := target_width,
      scale_height := target_height, fps := DEFAULT_FPS,
      output_label := output_label }
  else
    let c : ℤ × ℤ × ℤ × ℤ :=
      if input_aspect > target_aspect then
        let crop_width := pytrunc ((input_height : ℚ) * target_aspect)
        (crop_width, input_height, pyFloorDiv (input_width - crop_width) 2, 0)
      else
        let crop_height := pytrunc ((input_width : ℚ) / target_aspect)
        (input_width, crop_height, 0, pyFloorDiv (input_height - crop_height) 2)
    { source := source,
      crop := some (make_even c.1, make_even c.2.1, make_even c.2.2.1,
        make_even c.2.2.2),
      scale_width := target_width, scale_height := target_height,
      fps := DEFAULT_FPS, output_label := output_label }

/-- `VideoProcessor.build_filter_complex`: optional loop step per input
(appended first, video 1 then video 2), then the two crop/scale stages,
then the stacking combinator keyed on the layout string. -/
def build_filter_complex (video1_info video2_info : VideoInfo) (layout : String)
    (loop_videos : Bool) (target_duration : ℚ) : List FilterStep :=
  let dimensions := calculate_layout_dimensions video1_info video2_info layout
  let loop1_needed : Bool :=
    loop_videos && decide (video1_info.duration < target_duration)
  let loop2_needed : Bool :=
    loop_videos && decide (video2_info.duration < target_duration)
  let v1_source : String := if loop1_needed then "[v1_looped]" else "[0:v]"
  let v2_source : String := if loop2_needed then "[v2_looped]" else "[1:v]"
  (if loop1_needed then [FilterStep.loop ("[0:v]") ("v1_looped")] else []) ++
  (if loop2_needed then [FilterStep.loop ("[1:v]") ("v2_looped")] else []) ++
  [FilterStep.cropScale (build_crop_scale_filter v1_source video1_info
      dimensions.video_width dimensions.video_height ("v1_final")),
   FilterStep.cropScale (build_crop_scale_filter v2_source video2_info
      dimensions.video_width dimensions.video_height ("v2_final")),
   if layout = "16:9 Side by side" then FilterStep.hstack else FilterStep.vstack]

end VideoProcessor

/-- The three admissible values of the `quality_preset` input (the
`choices` list of `Predictor.predict` restricts it to exactly these), as
a closed enumeration so the per-codec quality lookup tables are total. -/
inductive QualityPreset where
  | fastest
  | fast
  | balanced
deriving DecidableEq, Repr

/-- Python `x or d` for `x : Optional[int]`: `None` and `0` are falsy. -/
def py_or_nat (x : Option ℕ) (d : ℕ) : ℕ :=
  match x with
  | none => d
  | some n => if n = 0 then d else n

namespace VideoProcessor

/-- `VideoProcessor.build_encoding_args`: codec selection and tuning
keyed on the acceleration mode string (any value other than the three
known accelerators, including `None`, takes the software else branch),
then the fixed audio and container arguments. -/
def build_encoding_args (quality_preset : QualityPreset)
    (hw_accel : Option String) : List String :=
  let args : List String :=
    if hw_accel = some ("nvenc") then
      ["-c:v", "h264_nvenc", "-rc", "vbr", "-gpu", "0"] ++
      (match quality_preset with
       | .fastest => ["-preset", "p1", "-cq", "28"]
       | .fast => ["-preset", "p3", "-cq", "25"]
       | .balanced => ["-preset", "p4", "-cq", "23"])
    else if hw_accel = some ("qsv") then
      ["-c:v", "h264_qsv"] ++
      (match quality_preset with
       | .fastest => ["-preset", "veryfast", "-global_quality", "28"]
       | .fast => ["-preset", "faster", "-global_quality", "25"]
       | .balanced => ["-preset", "fast", "-global_quality", "23"])
    else if hw_accel = some ("videotoolbox") then
      ["-c:v", "h264_videotoolbox", "-realtime", "1"] ++
      ["-q:v", match quality_preset with
               | .fastest => "80"
               | .fast => "65"
               | .balanced => "50"]
    else
      ["-c:v", "libx264"] ++
      (match quality_preset with
       | .fastest => ["-preset", "ultrafast", "-crf", "28"]
       | .fast => ["-preset", "veryfast", "-crf", "25"]
       | .balanced => ["-preset", "fast", "-crf", "23"]) ++
      ["-x264-params", "scenecut=0:bframes=2:b-adapt=1:ref=1"]
  args ++ ["-c:a", "aac", "-b:a", DEFAULT_AUDIO_BITRATE, "-ac", "2"] ++
  ["-movflags", "+faststart", "-fflags", "+genpts"]

end VideoProcessor

/-- The complete argument plan built by `_build_ffmpeg_command`; each
field stands for one `cmd.extend` segment of the source, in source
order: `ffmpeg -y -threads N -i in1 -i in2 -filter_complex F`, the
audio-mapping arguments (possibly introducing the synthetic silent third
input), `-map [output] -t D -vsync cfr -r FPS -avoid_negative_ts
make_zero`, the encoding arguments, and the output path. -/
structure FFmpegCommand where
  threads : ℕ
  input1 : String
  input2 : String
  filter : List FilterStep
  audio_args : List String
  video_map : List String
  duration : ℚ
  vsync : String
  out_fps : ℕ
  avoid_negative_ts : String
  encoding : List String
  output : String
deriving DecidableEq, Repr

namespace VideoProcessor

/-- `VideoProcessor._build_ffmpeg_command`. `cpu_count` is the
environment's `os.cpu_count()` result (an oracle parameter). -/
def build_ffmpeg_command (video_1 video_2 output_path : String)
    (layout : String) (video1_info video2_info : VideoInfo)
    (loop_videos : Bool) (target_duration : ℚ) (audio_source : String)
    (quality_preset : QualityPreset) (hw_accel : Option String)
    (cpu_count : Option ℕ) : FFmpegCommand :=
  let filter_complex :=
    build_filter_complex video1_info video2_info layout loop_videos
      target_duration
  let video1_has_audio := video1_info.has_audio
  let video2_has_audio := video2_info.has_audio
  let audio_args : List String :=
    if audio_source = "video 1" ∧ video1_has_audio then ["-map", "0:a:0"]
    else if audio_source = "video 2" ∧ video2_has_audio then ["-map", "1:a:0"]
    else if video1_has_audio then ["-map", "0:a:0"]
    else if video2_has_audio then ["-map", "1:a:0"]
    else ["-f", "lavfi", "-i",
          "anullsrc=channel_layout=stereo:sample_rate=48000",
          "-map", "2:a:0"]
  { threads := min (py_or_nat cpu_count 4) 8
    input1 := video_1
    input2 := video_2
    filter := filter_complex
    audio_args := audio_args
    video_map := ["-map", "[output]"]
    duration := target_duration
    vsync := "cfr"
    out_fps := DEFAULT_FPS
    avoid_negative_ts := "make_zero"
    encoding := build_encoding_args quality_preset hw_accel
    output := output_path }

end VideoProcessor

/-- Outcome of one `subprocess.run(cmd, check=True, ...,
timeout=FFMPEG_TIMEOUT)` encoder invocation: normal exit, nonzero exit
(`CalledProcessError`), or `TimeoutExpired`. -/
inductive RunResult where
  | ok
  | calledProcessError
  | timeoutExpired
deriving DecidableEq, Repr

namespace VideoProcessor

/-- `VideoProcessor.process_videos`: the two-iteration attempt loop over
`[self.hw_accel, None]`, unrolled. `runner` is the external-encoder
oracle. Besides the Python return value (`Except` models the raised
`RuntimeError`s), the list of commands actually handed to the encoder is
returned so invocation counts can be stated. On a first-attempt
failure the retry happens only when the configured `hw_accel` is truthy;
the second attempt rebuilds the command with `hw_accel = None` and a
second failure raises. -/
def process_videos (hw_accel : Option String)
    (runner : FFmpegCommand → RunResult)
    (video_1 video_2 output_path : String) (layout : String)
    (video1_info video2_info : VideoInfo) (loop_videos : Bool)
    (target_duration : ℚ) (audio_source : String)
    (quality_preset : QualityPreset) (cpu_count : Option ℕ) :
    Except String Bool × List FFmpegCommand :=
  let cmd0 := build_ffmpeg_command video_1 video_2 output_path layout
    video1_info video2_info loop_videos target_duration audio_source
    quality_preset hw_accel cpu_count
  let retry : Unit → Except String Bool × List FFmpegCommand := fun _ =>
    let cmd1 := build_ffmpeg_command video_1 video_2 output_path layout
      video1_info video2_info loop_videos target_duration audio_source
      quality_preset none cpu_count
    match runner cmd1 with
    | .ok => (.ok true, [cmd0, cmd1])
    | .calledProcessError =>
        (.error ("Video processing failed"), [cmd0, cmd1])
    | .timeoutExpired =>
        (.error ("Video processing timed out"), [cmd0, cmd1])
  match runner cmd0 with
  | .ok => (.ok true, [cmd0])
  | .calledProcessError =>
      if pyTruthy hw_accel then retry ()
      else (.error ("Video processing failed"), [cmd0])
  | .timeoutExpired =>
      if pyTruthy hw_accel then retry ()
      else (.error ("Video processing timed out"), [cmd0])

end VideoProcessor

/-- Result of `Predictor.predict` as seen by the caller: the returned
output path, or the propagated exception message. -/
inductive PredictOutcome where
  | ok (path : String)
  | error (msg : String)
deriving DecidableEq, Repr

namespace Predictor

/-- `Predictor.predict`, with its external effects as oracle parameters:
`probe1`/`probe2` are the `get_video_info` results, `process_result` is
the `process_videos` outcome (`Except` models its raised errors), and
`output_exists_after_process` tells whether the declared output path
exists once processing has run (the temp file always exists before).
Returns the caller-visible outcome together with whether the output
artifact still exists afterwards (the `except` handler unlinks it on
every error path). -/
def predict (probe1 probe2 : Except String VideoInfo)
    (process_result : Except String Bool)
    (output_exists_after_process : Bool)
    (output_path : String) : PredictOutcome × Bool :=
  match probe1 with
  | .error e => (.error e, false)
  | .ok _ =>
    match probe2 with
    | .error e => (.error e, false)
    | .ok _ =>
      match process_result with
      | .error e => (.error e, false)
      | .ok success =>
        if success ∧ output_exists_after_process then
          (.ok output_path, output_exists_after_process)
        else
          (.error ("Video processing failed"), false)

end Predictor

/-- Splits a character list on every occurrence of `sep`; agrees with
Python `str.split(sep)` for a one-character separator (the empty string
yields one empty part). -/
def splitOnChar (sep : Char) (cs : List Char) : List (List Char) :=
  match cs with
  | [] => [[]]
  | x :: rest =>
    let r := splitOnChar sep rest
    if x = sep then [] :: r
    else
      match r with
      | [] => [[x]]
      | h :: t => (x :: h) :: t

/-- Value of a digit-only character list, or `none` if any character is
not a decimal digit (the empty list yields `some 0`; callers must check
emptiness themselves). -/
def digitsVal? (cs : List Char) : Option ℕ :=
  cs.foldl
    (fun acc c =>
      match acc with
      | none => none
      | some n => if c.isDigit then some (n * 10 + (c.toNat - 48)) else none)
    (some 0)

/-- Modelled from the spec: Python's builtin `float()` (external library
behaviour, not code of this repository), restricted to decimal literals
with an optional leading sign and an optional fractional part; the
scientific-notation, `inf`/`nan`, underscore and surrounding-whitespace
forms accepted by CPython are not modelled. Returns `none` exactly when
CPython would raise `ValueError` on such a literal. -/
def pyFloat? (cs : List Char) : Option ℚ :=
  let (sign, body) : ℤ × List Char :=
    match cs with
    | c :: rest =>
      if c = '-' then (-1, rest)
      else if c = '+' then (1, rest) else (1, cs)
    | [] => (1, [])
  let intPart := body.takeWhile (fun c => c ≠ '.')
  let rest := body.dropWhile (fun c => c ≠ '.')
  match rest with
  | [] =>
    match digitsVal? intPart with
    | some n => if intPart.isEmpty then none else some ((sign * n : ℤ) : ℚ)
    | none => none
  | _ :: fracPart =>
    if fracPart.contains '.' then none
    else
      match digitsVal? intPart, digitsVal? fracPart with
      | some a, some b =>
        if intPart.isEmpty ∧ fracPart.isEmpty then none
        else
          some (Rat.divInt (sign * ((a * 10 ^ fracPart.length + b : ℕ) : ℤ))
            ((10 ^ fracPart.length : ℕ) : ℤ))
      | _, _ => none

namespace VideoProcessor

/-- `VideoProcessor._parse_fps`: ratio strings `N/D` are evaluated as
`float(N) / float(D)`, plain strings as `float(s)`; a `ValueError`
(unparseable part, or a split that does not yield exactly two parts) or
a `ZeroDivisionError` (zero denominator) yields `DEFAULT_FPS`. -/
def parse_fps (fps_string : String) : ℚ :=
  if fps_string.data.contains '/' then
    match splitOnChar '/' fps_string.data with
    | [num, den] =>
      match pyFloat? num, pyFloat? den with
      | some n, some d =>
        if d = 0 then (DEFAULT_FPS : ℚ) else n / d
      | _, _ => (DEFAULT_FPS : ℚ)
    | _ => (DEFAULT_FPS : ℚ)
  else
    match pyFloat? fps_string.data with
    | some v => v
    | none => (DEFAULT_FPS : ℚ)

end VideoProcessor

/-- The claim-side notion of a successful fps parse: the exact value a
frame-rate string denotes, or `none` when it is unparseable (including a
malformed ratio or a zero denominator). Stated from the spec's words so
`parse_fps` can be compared against it. -/
def fps_parse_result (fps_string : String) : Option ℚ :=
  if fps_string.data.contains '/' then
    match splitOnChar '/' fps_string.data with
    | [num, den] =>
      match pyFloat? num, pyFloat? den with
      | some n, some d => if d = 0 then none else some (n / d)
      | _, _ => none
    | _ => none
  else pyFloat? fps_string.data

/-! ## Helper lemmas -/

theorem make_even_even (value : ℤ) : Even (VideoProcessor.make_even value) := by
  unfold VideoProcessor.make_even
  rcases Int.emod_two_eq_zero_or_one value with h | h
  · rw [if_pos h]
    exact Int.even_iff.mpr h
  · rw [if_neg (by rw [h]; decide)]
    refine Int.even_iff.mpr ?_
    omega

theorem pytrunc_eq_floor (q : ℚ) (h : 0 ≤ q) : pytrunc q = ⌊q⌋ := by
  rw [Rat.floor_def]
  exact Int.tdiv_eq_ediv (Rat.num_nonneg.mpr h) (Int.ofNat_nonneg q.den)

theorem build_crop_scale_filter_fields (source : String) (video_info : VideoInfo)
    (target_width target_height : ℤ) (output_label : String) :
    (VideoProcessor.build_crop_scale_filter source video_info target_width
      target_height output_label).source = source ∧
    (VideoProcessor.build_crop_scale_filter source video_info target_width
      target_height output_label).scale_width = target_width ∧
    (VideoProcessor.build_crop_scale_filter source video_info target_width
      target_height output_label).scale_height = target_height ∧
    (VideoProcessor.build_crop_scale_filter source video_info target_width
      target_height output_label).fps = DEFAULT_FPS ∧
    (VideoProcessor.build_crop_scale_filter source video_info target_width
      target_height output_label).output_label = output_label := by
  simp only [VideoProcessor.build_crop_scale_filter]
  split <;> simp

/-! ## Claims -/

/-- C1: for every pair of metadata dictionaries with positive width and
height and every layout choice, the geometry returned by
`_calculate_layout_dimensions` has even `output_width`, `output_height`,
`video_width` and `video_height`, and satisfies the orientation sum
invariant: for the horizontal layout the two cell widths (each
`video_width`) sum to `output_width` and both cells share
`output_height`; for the vertical layout the two cell heights sum to
`output_height` and both cells share `output_width` (and the layout type
is always one of the two orientations). -/
theorem C1_layout_invariants (video1_info video2_info : VideoInfo)
    (layout : String)
    (h1w : 0 < video1_info.width) (h1h : 0 < video1_info.height)
    (h2w : 0 < video2_info.width) (h2h : 0 < video2_info.height) :
    let d := VideoProcessor.calculate_layout_dimensions video1_info video2_info
      layout
    (Even d.output_width ∧ Even d.output_height ∧ Even d.video_width ∧
      Even d.video_height) ∧
    (d.layout_type = "horizontal" →
      d.video_width + d.video_width = d.output_width ∧
      d.video_height = d.output_height) ∧
    (d.layout_type = "vertical" →
      d.video_height + d.video_height = d.output_height ∧
      d.video_width = d.output_width) ∧
    (d.layout_type = "horizontal" ∨ d.layout_type = "vertical") := by
  by_cases hl : layout = "16:9 Side by side" <;>
    simp only [VideoProcessor.calculate_layout_dimensions, hl,
      if_true, if_false] <;> decide

/-- Witness for C1 at two concrete metadata values and the side-by-side
layout. -/
theorem C1_layout_invariants_witness :
    (0 : ℤ) < 1280 ∧
    (let d := VideoProcessor.calculate_layout_dimensions
        ⟨1280, 720, 5, 24, true⟩ ⟨640, 480, 3, 30, false⟩ ("16:9 Side by side");
      (Even d.output_width ∧ Even d.output_height ∧ Even d.video_width ∧
        Even d.video_height) ∧
      (d.layout_type = "horizontal" →
        d.video_width + d.video_width = d.output_width ∧
        d.video_height = d.output_height) ∧
      (d.layout_type = "vertical" →
        d.video_height + d.video_height = d.output_height ∧
        d.video_width = d.output_width) ∧
      (d.layout_type = "horizontal" ∨ d.layout_type = "vertical")) :=
  ⟨by decide,
   C1_layout_invariants ⟨1280, 720, 5, 24, true⟩ ⟨640, 480, 3, 30, false⟩
     ("16:9 Side by side") (by decide) (by decide) (by decide) (by decide)⟩

/-- C2: for every input video metadata (positive width and height) and
every positive target cell size, `_build_crop_scale_filter` emits no
crop step (scale-only filter) exactly when the input and target aspect
ratios differ by less than 0.01 in absolute value; otherwise it emits a
centered crop before the scale: if the input aspect exceeds the target
aspect the crop width is `floor(inputHeight * targetAspect)` with full
height and horizontally centered origin, else the crop height is
`floor(inputWidth / targetAspect)` with full width and vertically
centered origin, and all four crop values (width, height, x-offset,
y-offset) are rounded down to even. -/
theorem C2_crop_rule (source : String) (video_info : VideoInfo)
    (target_width target_height : ℤ) (output_label : String)
    (hw : 0 < video_info.width) (hh : 0 < video_info.height)
    (htw : 0 < target_width) (hth : 0 < target_height) :
    let ia : ℚ := (video_info.width : ℚ) / (video_info.height : ℚ)
    let ta : ℚ := (target_width : ℚ) / (target_height : ℚ)
    let f := VideoProcessor.build_crop_scale_filter source video_info
      target_width target_height output_label
    (f.crop = none ↔ |ia - ta| < 1 / 100) ∧
    (¬ |ia - ta| < 1 / 100 →
      (ta < ia →
        f.crop = some
          (VideoProcessor.make_even ⌊(video_info.height : ℚ) * ta⌋,
           VideoProcessor.make_even video_info.height,
           VideoProcessor.make_even
             (pyFloorDiv
               (video_info.width - ⌊(video_info.height : ℚ) * ta⌋) 2),
           0)) ∧
      (¬ ta < ia →
        f.crop = some
          (VideoProcessor.make_even video_info.width,
           VideoProcessor.make_even ⌊(video_info.width : ℚ) / ta⌋,
           0,
           VideoProcessor.make_even
             (pyFloorDiv
               (video_info.height - ⌊(video_info.width : ℚ) / ta⌋) 2)))) ∧
    (∀ cw ch cx cy, f.crop = some (cw, ch, cx, cy) →
      Even cw ∧ Even ch ∧ Even cx ∧ Even cy) := by
  intro ia ta f
  have htw' : (0 : ℚ) ≤ (target_width : ℚ) := by exact_mod_cast htw.le
  have hth' : (0 : ℚ) ≤ (target_height : ℚ) := by exact_mod_cast hth.le
  have hta : (0 : ℚ) ≤ ta := div_nonneg htw' hth'
  have hhq : (0 : ℚ) ≤ (video_info.height : ℚ) := by exact_mod_cast hh.le
  have hwq : (0 : ℚ) ≤ (video_info.width : ℚ) := by exact_mod_cast hw.le
  have e1 : pytrunc ((video_info.height : ℚ) * ta) =
      ⌊(video_info.height : ℚ) * ta⌋ :=
    pytrunc_eq_floor _ (mul_nonneg hhq hta)
  have e2 : pytrunc ((video_info.width : ℚ) / ta) =
      ⌊(video_info.width : ℚ) / ta⌋ :=
    pytrunc_eq_floor _ (div_nonneg hwq hta)
  have hme0 : VideoProcessor.make_even 0 = 0 := by decide
  by_cases hlt : |ia - ta| < 1 / 100
  · have hc : f.crop = none := by
      unfold f
      unfold ia ta at hlt
      simp only [VideoProcessor.build_crop_scale_filter]
      rw [if_pos hlt]
    refine ⟨by rw [hc]; exact iff_of_true rfl hlt, fun h => absurd hlt h, ?_⟩
    intro cw ch cx cy hsome
    rw [hc] at hsome
    exact absurd hsome (by simp)
  · by_cases hgt : ta < ia
    · have hc : f.crop = some
          (VideoProcessor.make_even (pytrunc ((video_info.height : ℚ) * ta)),
           VideoProcessor.make_even video_info.height,
           VideoProcessor.make_even
             (pyFloorDiv
               (video_info.width - pytrunc ((video_info.height : ℚ) * ta)) 2),
           VideoProcessor.make_even 0) := by
        unfold f ta
        unfold ia ta at hlt hgt
        simp only [VideoProcessor.build_crop_scale_filter]
        rw [if_neg hlt, if_pos hgt]
      refine ⟨by rw [hc]; exact iff_of_false (by simp) hlt, fun _ => ⟨fun _ => ?_, fun h => absurd hgt h⟩, ?_⟩
      · rw [hc, e1, hme0]
      · intro cw ch cx cy hsome
        rw [hc] at hsome
        obtain ⟨r1, r2, r3, r4⟩ : VideoProcessor.make_even
            (pytrunc ((video_info.height : ℚ) * ta)) = cw ∧
            VideoProcessor.make_even video_info.height = ch ∧
            VideoProcessor.make_even
              (pyFloorDiv
                (video_info.width - pytrunc ((video_info.height : ℚ) * ta)) 2)
              = cx ∧
            VideoProcessor.make_even 0 = cy := by
          simpa [Prod.ext_iff] using hsome
        rw [← r1, ← r2, ← r3, ← r4]
        exact ⟨make_even_even _, make_even_even _, make_even_even _,
          make_even_even _⟩
    · have hc : f.crop = some
          (VideoProcessor.make_even video_info.width,
           VideoProcessor.make_even (pytrunc ((video_info.width : ℚ) / ta)),
           VideoProcessor.make_even 0,
           VideoProcessor.make_even
             (pyFloorDiv
               (video_info.height - pytrunc ((video_info.width : ℚ) / ta)) 2)) := by
        unfold f ta
        unfold ia ta at hlt hgt
        simp only [VideoProcessor.build_crop_scale_filter]
        rw [if_neg hlt, if_neg hgt]
      refine ⟨by rw [hc]; exact iff_of_false (by simp) hlt, fun _ => ⟨fun h => absurd h hgt, fun _ => ?_⟩, ?_⟩
      · rw [hc, e2, hme0]
      · intro cw ch cx cy hsome
        rw [hc] at hsome
        obtain ⟨r1, r2, r3, r4⟩ : VideoProcessor.make_even video_info.width = cw ∧
            VideoProcessor.make_even (pytrunc ((video_info.width : ℚ) / ta)) = ch ∧
            VideoProcessor.make_even 0 = cx ∧
            VideoProcessor.make_even
              (pyFloorDiv
                (video_info.height - pytrunc ((video_info.width : ℚ) / ta)) 2)
              = cy := by
          simpa [Prod.ext_iff] using hsome
        rw [← r1, ← r2, ← r3, ← r4]
        exact ⟨make_even_even _, make_even_even _, make_even_even _,
          make_even_even _⟩

/-- Witness for C2 at a 16:9 input squeezed into a 960 by 1080 cell: the
aspect difference is at least 0.01, so a centered even crop is emitted. -/
theorem C2_crop_rule_witness :
    ((VideoProcessor.build_crop_scale_filter ("[0:v]") ⟨1280, 720, 5, 24, true⟩
        960 1080 ("v1_final")).crop = none ↔
      |(1280 : ℚ) / 720 - (960 : ℚ) / 1080| < 1 / 100) ∧
    (VideoProcessor.build_crop_scale_filter ("[0:v]") ⟨1280, 720, 5, 24, true⟩
        960 1080 ("v1_final")).crop = some (640, 720, 320, 0) :=
  ⟨(C2_crop_rule ("[0:v]") ⟨1280, 720, 5, 24, true⟩ 960 1080 ("v1_final")
      (by decide) (by decide) (by decide) (by decide)).1,
   by decide⟩

/-- C3: for all 8 combinations of `audio_source` in `{video 1, video 2}`
and the two `has_audio` flags, `_build_ffmpeg_command` maps exactly one
audio stream, chosen by precedence: the explicitly requested input's
audio if that input has an audio track; otherwise video 1's audio if
present, otherwise video 2's; and when neither input has audio, a
synthetic silent stereo track at a fixed 48000 Hz sample rate is added
as a third input and that third input's audio (`2:a:0`) is mapped. -/
theorem C3_audio_precedence (video_1 video_2 output_path layout : String)
    (video1_info video2_info : VideoInfo) (loop_videos : Bool)
    (target_duration : ℚ) (audio_source : String)
    (quality_preset : QualityPreset) (hw_accel : Option String)
    (cpu_count : Option ℕ)
    (hsrc : audio_source = "video 1" ∨ audio_source = "video 2") :
    let cmd := VideoProcessor.build_ffmpeg_command video_1 video_2 output_path
      layout video1_info video2_info loop_videos target_duration audio_source
      quality_preset hw_accel cpu_count
    (cmd.audio_args = ["-map", "0:a:0"] ∨ cmd.audio_args = ["-map", "1:a:0"] ∨
      cmd.audio_args = ["-f", "lavfi", "-i",
        "anullsrc=channel_layout=stereo:sample_rate=48000", "-map", "2:a:0"]) ∧
    (audio_source = "video 1" → video1_info.has_audio = true →
      cmd.audio_args = ["-map", "0:a:0"]) ∧
    (audio_source = "video 2" → video2_info.has_audio = true →
      cmd.audio_args = ["-map", "1:a:0"]) ∧
    (audio_source = "video 1" → video1_info.has_audio = false →
      video2_info.has_audio = true → cmd.audio_args = ["-map", "1:a:0"]) ∧
    (audio_source = "video 2" → video2_info.has_audio = false →
      video1_info.has_audio = true → cmd.audio_args = ["-map", "0:a:0"]) ∧
    (video1_info.has_audio = false → video2_info.has_audio = false →
      cmd.audio_args = ["-f", "lavfi", "-i",
        "anullsrc=channel_layout=stereo:sample_rate=48000", "-map", "2:a:0"]) := by
  intro cmd
  unfold cmd
  rcases hsrc with h | h <;> subst h <;>
    cases hb1 : video1_info.has_audio <;> cases hb2 : video2_info.has_audio <;>
      simp [VideoProcessor.build_ffmpeg_command, hb1, hb2]

/-- Witness for C3: neither input has audio, so the silent synthetic
third input is referenced. -/
theorem C3_audio_precedence_witness :
    (VideoProcessor.build_ffmpeg_command ("a.mp4") ("b.mp4") ("out.mp4")
        ("16:9 Side by side") ⟨1280, 720, 5, 30, false⟩
        ⟨1280, 720, 5, 30, false⟩ false 5 ("video 1") QualityPreset.fast
        none (some 8)).audio_args =
      ["-f", "lavfi", "-i", "anullsrc=channel_layout=stereo:sample_rate=48000",
       "-map", "2:a:0"] :=
  (C3_audio_precedence ("a.mp4") ("b.mp4") ("out.mp4") ("16:9 Side by side")
    ⟨1280, 720, 5, 30, false⟩ ⟨1280, 720, 5, 30, false⟩ false 5 ("video 1")
    QualityPreset.fast none (some 8) (Or.inl rfl)).2.2.2.2.2 rfl rfl

/-- C9: every layout string other than exactly `"16:9 Side by side"` —
including the legacy names `"left and right"` and `"top and bottom"`
used by the repository's test scripts — yields the vertical portrait
geometry (1080 by 1920 output, 1080 by 960 cells, layout type
`vertical`) and a filter graph stacking with `vstack` rather than
`hstack`; only the exact string `"16:9 Side by side"` produces the
horizontal landscape layout type. -/
theorem C9_layout_string_dispatch (video1_info video2_info : VideoInfo)
    (layout : String) (loop_videos : Bool) (target_duration : ℚ)
    (hlay : layout ≠ "16:9 Side by side") :
    VideoProcessor.calculate_layout_dimensions video1_info video2_info layout =
      ⟨1080, 1920, 1080, 960, "vertical"⟩ ∧
    FilterStep.vstack ∈ VideoProcessor.build_filter_complex video1_info
      video2_info layout loop_videos target_duration ∧
    FilterStep.hstack ∉ VideoProcessor.build_filter_complex video1_info
      video2_info layout loop_videos target_duration ∧
    (VideoProcessor.calculate_layout_dimensions video1_info video2_info
      ("16:9 Side by side")).layout_type = "horizontal" := by
  refine ⟨?_, ?_, ?_, by simp [VideoProcessor.calculate_layout_dimensions]⟩
  · simp only [VideoProcessor.calculate_layout_dimensions]
    rw [if_neg hlay]
    decide
  · cases hl1 : (loop_videos && decide (video1_info.duration < target_duration)) <;>
      cases hl2 : (loop_videos && decide (video2_info.duration < target_duration)) <;>
        simp [VideoProcessor.build_filter_complex, hlay, hl1, hl2]
  · cases hl1 : (loop_videos && decide (video1_info.duration < target_duration)) <;>
      cases hl2 : (loop_videos && decide (video2_info.duration < target_duration)) <;>
        simp [VideoProcessor.build_filter_complex, hlay, hl1, hl2]

/-- Witness for C9 at the legacy layout name `"left and right"` used by
`test_dimensions.py`. -/
theorem C9_layout_string_dispatch_witness :
    VideoProcessor.calculate_layout_dimensions ⟨1280, 720, 5, 24, true⟩
      ⟨1280, 720, 5, 24, true⟩ ("left and right") =
      ⟨1080, 1920, 1080, 960, "vertical"⟩ ∧
    FilterStep.vstack ∈ VideoProcessor.build_filter_complex
      ⟨1280, 720, 5, 24, true⟩ ⟨1280, 720, 5, 24, true⟩ ("left and right")
      false 5 ∧
    FilterStep.hstack ∉ VideoProcessor.build_filter_complex
      ⟨1280, 720, 5, 24, true⟩ ⟨1280, 720, 5, 24, true⟩ ("left and right")
      false 5 ∧
    (VideoProcessor.calculate_layout_dimensions ⟨1280, 720, 5, 24, true⟩
      ⟨1280, 720, 5, 24, true⟩ ("16:9 Side by side")).layout_type =
      "horizontal" :=
  C9_layout_string_dispatch ⟨1280, 720, 5, 24, true⟩ ⟨1280, 720, 5, 24, true⟩
    ("left and right") false 5 (by decide)

/-- C6: for every pair of metadata dictionaries, loop flag and target
duration, the filter chain contains the Loop step for an input iff
looping is enabled and that input's duration is strictly below the
target duration; when present, the Loop step precedes that input's
crop/scale stage, and each input's chain always ends with a scale to the
assigned cell dimensions at the fixed normalized frame rate. -/
theorem C6_loop_rule (video1_info video2_info : VideoInfo) (layout : String)
    (loop_videos : Bool) (target_duration : ℚ) :
    let d := VideoProcessor.calculate_layout_dimensions video1_info video2_info
      layout
    let fs := VideoProcessor.build_filter_complex video1_info video2_info layout
      loop_videos target_duration
    (FilterStep.loop ("[0:v]") ("v1_looped") ∈ fs ↔
      loop_videos = true ∧ video1_info.duration < target_duration) ∧
    (FilterStep.loop ("[1:v]") ("v2_looped") ∈ fs ↔
      loop_videos = true ∧ video2_info.duration < target_duration) ∧
    (∃ f1 : CropScaleFilter, FilterStep.cropScale f1 ∈ fs ∧
      f1.output_label = "v1_final" ∧ f1.scale_width = d.video_width ∧
      f1.scale_height = d.video_height ∧ f1.fps = DEFAULT_FPS ∧
      (loop_videos = true → video1_info.duration < target_duration →
        List.Sublist [FilterStep.loop ("[0:v]") ("v1_looped"),
          FilterStep.cropScale f1] fs)) ∧
    (∃ f2 : CropScaleFilter, FilterStep.cropScale f2 ∈ fs ∧
      f2.output_label = "v2_final" ∧ f2.scale_width = d.video_width ∧
      f2.scale_height = d.video_height ∧ f2.fps = DEFAULT_FPS ∧
      (loop_videos = true → video2_info.duration < target_duration →
        List.Sublist [FilterStep.loop ("[1:v]") ("v2_looped"),
          FilterStep.cropScale f2] fs)) := by
  intro d fs
  have hiff1 : (loop_videos = true ∧ video1_info.duration < target_duration) ↔
      (loop_videos && decide (video1_info.duration < target_duration)) = true := by
    simp
  have hiff2 : (loop_videos = true ∧ video2_info.duration < target_duration) ↔
      (loop_videos && decide (video2_info.duration < target_duration)) = true := by
    simp
  rw [hiff1, hiff2]
  unfold fs d
  cases hl1 : (loop_videos && decide (video1_info.duration < target_duration)) <;>
    cases hl2 : (loop_videos && decide (video2_info.duration < target_duration)) <;>
      simp only [VideoProcessor.build_filter_complex, hl1, hl2, if_true,
        if_false, Bool.false_eq_true, List.nil_append, List.cons_append,
        List.singleton_append, List.append_nil] <;>
      refine ⟨by simp [hl1]; try (split <;> simp),
        by simp [hl2]; try (split <;> simp), ?_, ?_⟩
  case false.false.refine_1 =>
    refine ⟨VideoProcessor.build_crop_scale_filter ("[0:v]") video1_info
        (VideoProcessor.calculate_layout_dimensions video1_info video2_info
          layout).video_width
        (VideoProcessor.calculate_layout_dimensions video1_info video2_info
          layout).video_height ("v1_final"), by simp,
      (build_crop_scale_filter_fields _ _ _ _ _).2.2.2.2,
      (build_crop_scale_filter_fields _ _ _ _ _).2.1,
      (build_crop_scale_filter_fields _ _ _ _ _).2.2.1,
      (build_crop_scale_filter_fields _ _ _ _ _).2.2.2.1,
      fun ha hb => absurd hl1 (by simp [ha, hb])⟩
  case false.false.refine_2 =>
    refine ⟨VideoProcessor.build_crop_scale_filter ("[1:v]") video2_info
        (VideoProcessor.calculate_layout_dimensions video1_info video2_info
          layout).video_width
        (VideoProcessor.calculate_layout_dimensions video1_info video2_info
          layout).video_height ("v2_final"), by simp,
      (build_crop_scale_filter_fields _ _ _ _ _).2.2.2.2,
      (build_crop_scale_filter_fields _ _ _ _ _).2.1,
      (build_crop_scale_filter_fields _ _ _ _ _).2.2.1,
      (build_crop_scale_filter_fields _ _ _ _ _).2.2.2.1,
      fun ha hb => absurd hl2 (by simp [ha, hb])⟩
  case false.true.refine_1 =>
    refine ⟨VideoProcessor.build_crop_scale_filter ("[0:v]") video1_info
        (VideoProcessor.calculate_layout_dimensions video1_info video2_info
          layout).video_width
        (VideoProcessor.calculate_layout_dimensions video1_info video2_info
          layout).video_height ("v1_final"), by simp,
      (build_crop_scale_filter_fields _ _ _ _ _).2.2.2.2,
      (build_crop_scale_filter_fields _ _ _ _ _).2.1,
      (build_crop_scale_filter_fields _ _ _ _ _).2.2.1,
      (build_crop_scale_filter_fields _ _ _ _ _).2.2.2.1,
      fun ha hb => absurd hl1 (by simp [ha, hb])⟩
  case false.true.refine_2 =>
    refine ⟨VideoProcessor.build_crop_scale_filter ("[v2_looped]") video2_info
        (VideoProcessor.calculate_layout_dimensions video1_info video2_info
          layout).video_width
        (VideoProcessor.calculate_layout_dimensions video1_info video2_info
          layout).video_height ("v2_final"), by simp,
      (build_crop_scale_filter_fields _ _ _ _ _).2.2.2.2,
      (build_crop_scale_filter_fields _ _ _ _ _).2.1,
      (build_crop_scale_filter_fields _ _ _ _ _).2.2.1,
      (build_crop_scale_filter_fields _ _ _ _ _).2.2.2.1,
      fun _ _ => (List.singleton_sublist.mpr (by simp)).cons₂ _⟩
  case true.false.refine_1 =>
    refine ⟨VideoProcessor.build_crop_scale_filter ("[v1_looped]") video1_info
        (VideoProcessor.calculate_layout_dimensions video1_info video2_info
          layout).video_width
        (VideoProcessor.calculate_layout_dimensions video1_info video2_info
          layout).video_height ("v1_final"), by simp,
      (build_crop_scale_filter_fields _ _ _ _ _).2.2.2.2,
      (build_crop_scale_filter_fields _ _ _ _ _).2.1,
      (build_crop_scale_filter_fields _ _ _ _ _).2.2.1,
      (build_crop_scale_filter_fields _ _ _ _ _).2.2.2.1,
      fun _ _ => (List.singleton_sublist.mpr (by simp)).cons₂ _⟩
  case true.false.refine_2 =>
    refine ⟨VideoProcessor.build_crop_scale_filter ("[1:v]") video2_info
        (VideoProcessor.calculate_layout_dimensions video1_info video2_info
          layout).video_width
        (VideoProcessor.calculate_layout_dimensions video1_info video2_info
          layout).video_height ("v2_final"), by simp,
      (build_crop_scale_filter_fields _ _ _ _ _).2.2.2.2,
      (build_crop_scale_filter_fields _ _ _ _ _).2.1,
      (build_crop_scale_filter_fields _ _ _ _ _).2.2.1,
      (build_crop_scale_filter_fields _ _ _ _ _).2.2.2.1,
      fun ha hb => absurd hl2 (by simp [ha, hb])⟩
  case true.true.refine_1 =>
    refine ⟨VideoProcessor.build_crop_scale_filter ("[v1_looped]") video1_info
        (VideoProcessor.calculate_layout_dimensions video1_info video2_info
          layout).video_width
        (VideoProcessor.calculate_layout_dimensions video1_info video2_info
          layout).video_height ("v1_final"), by simp,
      (build_crop_scale_filter_fields _ _ _ _ _).2.2.2.2,
      (build_crop_scale_filter_fields _ _ _ _ _).2.1,
      (build_crop_scale_filter_fields _ _ _ _ _).2.2.1,
      (build_crop_scale_filter_fields _ _ _ _ _).2.2.2.1,
      fun _ _ => (List.singleton_sublist.mpr (by simp)).cons₂ _⟩
  case true.true.refine_2 =>
    refine ⟨VideoProcessor.build_crop_scale_filter ("[v2_looped]") video2_info
        (VideoProcessor.calculate_layout_dimensions video1_info video2_info
          layout).video_width
        (VideoProcessor.calculate_layout_dimensions video1_info video2_info
          layout).video_height ("v2_final"), by simp,
      (build_crop_scale_filter_fields _ _ _ _ _).2.2.2.2,
      (build_crop_scale_filter_fields _ _ _ _ _).2.1,
      (build_crop_scale_filter_fields _ _ _ _ _).2.2.1,
      (build_crop_scale_filter_fields _ _ _ _ _).2.2.2.1,
      fun _ _ => ((List.singleton_sublist.mpr (by simp)).cons₂ _).cons _⟩

/-- Witness for C6 at concrete inputs where video 2 (2 s) needs looping
towards a 5 s target and video 1 (5 s) does not. -/
theorem C6_loop_rule_witness :
    let d := VideoProcessor.calculate_layout_dimensions ⟨1280, 720, 5, 24, true⟩
      ⟨1920, 1080, 2, 30, true⟩ ("16:9 Side by side")
    let fs := VideoProcessor.build_filter_complex ⟨1280, 720, 5, 24, true⟩
      ⟨1920, 1080, 2, 30, true⟩ ("16:9 Side by side") true 5
    (FilterStep.loop ("[0:v]") ("v1_looped") ∈ fs ↔
      true = true ∧ (5 : ℚ) < 5) ∧
    (FilterStep.loop ("[1:v]") ("v2_looped") ∈ fs ↔
      true = true ∧ (2 : ℚ) < 5) ∧
    (∃ f1 : CropScaleFilter, FilterStep.cropScale f1 ∈ fs ∧
      f1.output_label = "v1_final" ∧ f1.scale_width = d.video_width ∧
      f1.scale_height = d.video_height ∧ f1.fps = DEFAULT_FPS ∧
      (true = true → (5 : ℚ) < 5 →
        List.Sublist [FilterStep.loop ("[0:v]") ("v1_looped"),
          FilterStep.cropScale f1] fs)) ∧
    (∃ f2 : CropScaleFilter, FilterStep.cropScale f2 ∈ fs ∧
      f2.output_label = "v2_final" ∧ f2.scale_width = d.video_width ∧
      f2.scale_height = d.video_height ∧ f2.fps = DEFAULT_FPS ∧
      (true = true → (2 : ℚ) < 5 →
        List.Sublist [FilterStep.loop ("[1:v]") ("v2_looped"),
          FilterStep.cropScale f2] fs)) :=
  C6_loop_rule ⟨1280, 720, 5, 24, true⟩ ⟨1920, 1080, 2, 30, true⟩
    ("16:9 Side by side") true 5

/-- Counterexample to C5 as stated: for the 1280 by 720 inputs of the
end-to-end example, the cell is 960 by 1080 (aspect 8:9), which differs
from the input aspect 16:9 by far more than 0.01, so each input's
transform chain does contain a crop step (`crop=640:720:320:0`),
contradicting the claim that neither chain contains one. -/
theorem C5_counterexample :
    (VideoProcessor.build_crop_scale_filter ("[0:v]") ⟨1280, 720, 5, 30, true⟩
      960 1080 ("v1x")).crop ≠ none ∧
    VideoProcessor.build_filter_complex ⟨1280, 720, 5, 30, true⟩
      ⟨1280, 720, 5, 30, true⟩ ("16:9 Side by side") false 5 =
      [FilterStep.cropScale
         ⟨"[0:v]", some (640, 720, 320, 0), 960, 1080, 30, "v1_final"⟩,
       FilterStep.cropScale
         ⟨"[1:v]", some (640, 720, 320, 0), 960, 1080, 30, "v2_final"⟩,
       FilterStep.hstack] := by decide

/-- C5 (amended): for input1 = input2 = 1280 by 720, 5.0 s, with audio,
under `"16:9 Side by side"` with looping disabled and audio source
video 1: the geometry is 1920 by 1080 with two 960 by 1080 cells, each
input's transform chain contains a centered crop to 640 by 720 at offset
(320, 0) before its scale to 960 by 1080 (the input aspect 16:9 differs
from the cell aspect 8:9 by at least 0.01), the filter graph contains
exactly one `hstack` combinator, the command's target duration is 5.0 s,
and the mapped audio is input 1's audio stream. -/
theorem C5_standard_frame_example :
    VideoProcessor.calculate_layout_dimensions ⟨1280, 720, 5, 30, true⟩
      ⟨1280, 720, 5, 30, true⟩ ("16:9 Side by side") =
      ⟨1920, 1080, 960, 1080, "horizontal"⟩ ∧
    (let cmd := VideoProcessor.build_ffmpeg_command ("v1.mp4") ("v2.mp4")
      ("out.mp4") ("16:9 Side by side") ⟨1280, 720, 5, 30, true⟩
      ⟨1280, 720, 5, 30, true⟩ false 5 ("video 1") QualityPreset.fast none
      (some 8);
    cmd.filter =
      [FilterStep.cropScale
         ⟨"[0:v]", some (640, 720, 320, 0), 960, 1080, 30, "v1_final"⟩,
       FilterStep.cropScale
         ⟨"[1:v]", some (640, 720, 320, 0), 960, 1080, 30, "v2_final"⟩,
       FilterStep.hstack] ∧
    ¬ |(1280 : ℚ) / 720 - (960 : ℚ) / 1080| < 1 / 100 ∧
    cmd.filter.count FilterStep.hstack = 1 ∧
    cmd.duration = 5 ∧
    cmd.audio_args = ["-map", "0:a:0"]) := by decide

/-- C4: the encoding retry state machine of `process_videos` never
invokes the encoder more than twice: a successful first attempt returns
success without a second invocation; a first-attempt failure (nonzero
exit or timeout, treated identically) with a hardware mode configured
triggers exactly one retry with software parameters while the filter
graph, audio and video mapping, and duration arguments are unchanged; a
failure of that software retry is terminal failure. -/
theorem C4_retry_state_machine (video_1 video_2 output_path layout : String)
    (video1_info video2_info : VideoInfo) (loop_videos : Bool)
    (target_duration : ℚ) (audio_source : String)
    (quality_preset : QualityPreset) (hw_accel : Option String)
    (cpu_count : Option ℕ) (runner : FFmpegCommand → RunResult)
    (cmd0 cmd1 : FFmpegCommand)
    (r : Except String Bool × List FFmpegCommand)
    (hhw : pyTruthy hw_accel = true)
    (hc0 : cmd0 = VideoProcessor.build_ffmpeg_command video_1 video_2
      output_path layout video1_info video2_info loop_videos target_duration
      audio_source quality_preset hw_accel cpu_count)
    (hc1 : cmd1 = VideoProcessor.build_ffmpeg_command video_1 video_2
      output_path layout video1_info video2_info loop_videos target_duration
      audio_source quality_preset none cpu_count)
    (hr : r = VideoProcessor.process_videos hw_accel runner video_1 video_2
      output_path layout video1_info video2_info loop_videos target_duration
      audio_source quality_preset cpu_count) :
    r.2.length ≤ 2 ∧
    (runner cmd0 = RunResult.ok → r = (Except.ok true, [cmd0])) ∧
    (runner cmd0 ≠ RunResult.ok →
      r.2 = [cmd0, cmd1] ∧
      cmd1.encoding = VideoProcessor.build_encoding_args quality_preset none ∧
      cmd0.filter = cmd1.filter ∧ cmd0.audio_args = cmd1.audio_args ∧
      cmd0.video_map = cmd1.video_map ∧ cmd0.duration = cmd1.duration ∧
      (runner cmd1 = RunResult.ok → r.1 = Except.ok true) ∧
      (runner cmd1 ≠ RunResult.ok → ∃ msg, r.1 = Except.error msg)) := by
  subst hc0 hc1 hr
  cases hr0 : runner (VideoProcessor.build_ffmpeg_command video_1 video_2
      output_path layout video1_info video2_info loop_videos target_duration
      audio_source quality_preset hw_accel cpu_count) with
  | ok =>
    have hp : VideoProcessor.process_videos hw_accel runner video_1 video_2
        output_path layout video1_info video2_info loop_videos target_duration
        audio_source quality_preset cpu_count =
        (Except.ok true, [(VideoProcessor.build_ffmpeg_command video_1 video_2
      output_path layout video1_info video2_info loop_videos target_duration
      audio_source quality_preset hw_accel cpu_count)]) := by
      simp [VideoProcessor.process_videos, hr0]
    exact ⟨by rw [hp]; simp, fun _ => hp, fun hne => absurd rfl hne⟩
  | calledProcessError =>
    cases hr1 : runner (VideoProcessor.build_ffmpeg_command video_1 video_2
      output_path layout video1_info video2_info loop_videos target_duration
      audio_source quality_preset none cpu_count) with
    | ok =>
      have hp : VideoProcessor.process_videos hw_accel runner video_1 video_2
        output_path layout video1_info video2_info loop_videos target_duration
        audio_source quality_preset cpu_count =
          (Except.ok true, [(VideoProcessor.build_ffmpeg_command video_1 video_2
      output_path layout video1_info video2_info loop_videos target_duration
      audio_source quality_preset hw_accel cpu_count), (VideoProcessor.build_ffmpeg_command video_1 video_2
      output_path layout video1_info video2_info loop_videos target_duration
      audio_source quality_preset none cpu_count)]) := by
        simp [VideoProcessor.process_videos, hr0, hr1, hhw]
      refine ⟨by rw [hp]; simp, fun h0 => by simp [hr0] at h0,
        fun _ => ⟨by rw [hp], rfl, rfl, rfl, rfl, rfl, fun _ => by rw [hp],
          fun h1 => absurd rfl h1⟩⟩
    | calledProcessError =>
      have hp : VideoProcessor.process_videos hw_accel runner video_1 video_2
        output_path layout video1_info video2_info loop_videos target_duration
        audio_source quality_preset cpu_count =
          (Except.error ("Video processing failed"), [(VideoProcessor.build_ffmpeg_command video_1 video_2
      output_path layout video1_info video2_info loop_videos target_duration
      audio_source quality_preset hw_accel cpu_count), (VideoProcessor.build_ffmpeg_command video_1 video_2
      output_path layout video1_info video2_info loop_videos target_duration
      audio_source quality_preset none cpu_count)]) := by
        simp [VideoProcessor.process_videos, hr0, hr1, hhw]
      refine ⟨by rw [hp]; simp, fun h0 => by simp [hr0] at h0,
        fun _ => ⟨by rw [hp], rfl, rfl, rfl, rfl, rfl,
          fun h1 => by simp [hr1] at h1,
          fun _ => ⟨"Video processing failed", by rw [hp]⟩⟩⟩
    | timeoutExpired =>
      have hp : VideoProcessor.process_videos hw_accel runner video_1 video_2
        output_path layout video1_info video2_info loop_videos target_duration
        audio_source quality_preset cpu_count =
          (Except.error ("Video processing timed out"), [(VideoProcessor.build_ffmpeg_command video_1 video_2
      output_path layout video1_info video2_info loop_videos target_duration
      audio_source quality_preset hw_accel cpu_count), (VideoProcessor.build_ffmpeg_command video_1 video_2
      output_path layout video1_info video2_info loop_videos target_duration
      audio_source quality_preset none cpu_count)]) := by
        simp [VideoProcessor.process_videos, hr0, hr1, hhw]
      refine ⟨by rw [hp]; simp, fun h0 => by simp [hr0] at h0,
        fun _ => ⟨by rw [hp], rfl, rfl, rfl, rfl, rfl,
          fun h1 => by simp [hr1] at h1,
          fun _ => ⟨"Video processing timed out", by rw [hp]⟩⟩⟩
  | timeoutExpired =>
    cases hr1 : runner (VideoProcessor.build_ffmpeg_command video_1 video_2
      output_path layout video1_info video2_info loop_videos target_duration
      audio_source quality_preset none cpu_count) with
    | ok =>
      have hp : VideoProcessor.process_videos hw_accel runner video_1 video_2
        output_path layout video1_info video2_info loop_videos target_duration
        audio_source quality_preset cpu_count =
          (Except.ok true, [(VideoProcessor.build_ffmpeg_command video_1 video_2
      output_path layout video1_info video2_info loop_videos target_duration
      audio_source quality_preset hw_accel cpu_count), (VideoProcessor.build_ffmpeg_command video_1 video_2
      output_path layout video1_info video2_info loop_videos target_duration
      audio_source quality_preset none cpu_count)]) := by
        simp [VideoProcessor.process_videos, hr0, hr1, hhw]
      refine ⟨by rw [hp]; simp, fun h0 => by simp [hr0] at h0,
        fun _ => ⟨by rw [hp], rfl, rfl, rfl, rfl, rfl, fun _ => by rw [hp],
          fun h1 => absurd rfl h1⟩⟩
    | calledProcessError =>
      have hp : VideoProcessor.process_videos hw_accel runner video_1 video_2
        output_path layout video1_info video2_info loop_videos target_duration
        audio_source quality_preset cpu_count =
          (Except.error ("Video processing failed"), [(VideoProcessor.build_ffmpeg_command video_1 video_2
      output_path layout video1_info video2_info loop_videos target_duration
      audio_source quality_preset hw_accel cpu_count), (VideoProcessor.build_ffmpeg_command video_1 video_2
      output_path layout video1_info video2_info loop_videos target_duration
      audio_source quality_preset none cpu_count)]) := by
        simp [VideoProcessor.process_videos, hr0, hr1, hhw]
      refine ⟨by rw [hp]; simp, fun h0 => by simp [hr0] at h0,
        fun _ => ⟨by rw [hp], rfl, rfl, rfl, rfl, rfl,
          fun h1 => by simp [hr1] at h1,
          fun _ => ⟨"Video processing failed", by rw [hp]⟩⟩⟩
    | timeoutExpired =>
      have hp : VideoProcessor.process_videos hw_accel runner video_1 video_2
        output_path layout video1_info video2_info loop_videos target_duration
        audio_source quality_preset cpu_count =
          (Except.error ("Video processing timed out"), [(VideoProcessor.build_ffmpeg_command video_1 video_2
      output_path layout video1_info video2_info loop_videos target_duration
      audio_source quality_preset hw_accel cpu_count), (VideoProcessor.build_ffmpeg_command video_1 video_2
      output_path layout video1_info video2_info loop_videos target_duration
      audio_source quality_preset none cpu_count)]) := by
        simp [VideoProcessor.process_videos, hr0, hr1, hhw]
      refine ⟨by rw [hp]; simp, fun h0 => by simp [hr0] at h0,
        fun _ => ⟨by rw [hp], rfl, rfl, rfl, rfl, rfl,
          fun h1 => by simp [hr1] at h1,
          fun _ => ⟨"Video processing timed out", by rw [hp]⟩⟩⟩

/-- Witness for C4: with a configured `nvenc` mode and an encoder that
always fails, exactly the hardware command and then the software-rebuilt
command are invoked. -/
theorem C4_retry_state_machine_witness :
    (VideoProcessor.process_videos (some ("nvenc"))
      (fun _ => RunResult.calledProcessError) ("a.mp4") ("b.mp4") ("out.mp4")
      ("16:9 Side by side") ⟨1280, 720, 5, 30, true⟩ ⟨1280, 720, 5, 30, true⟩
      false 5 ("video 1") QualityPreset.fast (some 8)).2.length ≤ 2 ∧
    (VideoProcessor.process_videos (some ("nvenc"))
      (fun _ => RunResult.calledProcessError) ("a.mp4") ("b.mp4") ("out.mp4")
      ("16:9 Side by side") ⟨1280, 720, 5, 30, true⟩ ⟨1280, 720, 5, 30, true⟩
      false 5 ("video 1") QualityPreset.fast (some 8)).2 =
      [VideoProcessor.build_ffmpeg_command ("a.mp4") ("b.mp4") ("out.mp4")
        ("16:9 Side by side") ⟨1280, 720, 5, 30, true⟩ ⟨1280, 720, 5, 30, true⟩
        false 5 ("video 1") QualityPreset.fast (some ("nvenc")) (some 8),
       VideoProcessor.build_ffmpeg_command ("a.mp4") ("b.mp4") ("out.mp4")
        ("16:9 Side by side") ⟨1280, 720, 5, 30, true⟩ ⟨1280, 720, 5, 30, true⟩
        false 5 ("video 1") QualityPreset.fast none (some 8)] := by
  have h := C4_retry_state_machine ("a.mp4") ("b.mp4") ("out.mp4")
    ("16:9 Side by side") ⟨1280, 720, 5, 30, true⟩ ⟨1280, 720, 5, 30, true⟩
    false 5 ("video 1") QualityPreset.fast (some ("nvenc")) (some 8)
    (fun _ => RunResult.calledProcessError) _ _ _ (by decide) rfl rfl rfl
  exact ⟨h.1, (h.2.2 (by decide)).1⟩

/-- C10: when the configured acceleration mode is already software
(`hw_accel` is `None`), a single failed encoder attempt (nonzero exit or
timeout) raises immediately with no second attempt; more generally, a
second attempt ever happens only when the configured mode is truthy
(non-`None`, non-empty). -/
theorem C10_software_mode_no_retry (video_1 video_2 output_path layout : String)
    (video1_info video2_info : VideoInfo) (loop_videos : Bool)
    (target_duration : ℚ) (audio_source : String)
    (quality_preset : QualityPreset) (cpu_count : Option ℕ)
    (runner : FFmpegCommand → RunResult) (cmd0 : FFmpegCommand)
    (r : Except String Bool × List FFmpegCommand)
    (hc0 : cmd0 = VideoProcessor.build_ffmpeg_command video_1 video_2
      output_path layout video1_info video2_info loop_videos target_duration
      audio_source quality_preset none cpu_count)
    (hr : r = VideoProcessor.process_videos none runner video_1 video_2
      output_path layout video1_info video2_info loop_videos target_duration
      audio_source quality_preset cpu_count) :
    (runner cmd0 ≠ RunResult.ok →
      (∃ msg, r.1 = Except.error msg) ∧ r.2 = [cmd0]) ∧
    (∀ hw : Option String,
      (VideoProcessor.process_videos hw runner video_1 video_2 output_path
        layout video1_info video2_info loop_videos target_duration
        audio_source quality_preset cpu_count).2.length = 2 →
      pyTruthy hw = true) := by
  subst hc0 hr
  constructor
  · intro hne
    cases hr0 : runner (VideoProcessor.build_ffmpeg_command video_1 video_2
        output_path layout video1_info video2_info loop_videos target_duration
        audio_source quality_preset none cpu_count) with
    | ok => exact absurd hr0 hne
    | calledProcessError =>
      constructor
      · exact ⟨"Video processing failed",
          by simp [VideoProcessor.process_videos, hr0, pyTruthy]⟩
      · simp [VideoProcessor.process_videos, hr0, pyTruthy]
    | timeoutExpired =>
      constructor
      · exact ⟨"Video processing timed out",
          by simp [VideoProcessor.process_videos, hr0, pyTruthy]⟩
      · simp [VideoProcessor.process_videos, hr0, pyTruthy]
  · intro hw hlen
    by_cases hpt : pyTruthy hw = true
    · exact hpt
    · exfalso
      have hf : pyTruthy hw = false := by
        revert hpt
        cases pyTruthy hw <;> simp
      cases hr0 : runner (VideoProcessor.build_ffmpeg_command video_1 video_2
          output_path layout video1_info video2_info loop_videos target_duration
          audio_source quality_preset hw cpu_count) <;>
        simp [VideoProcessor.process_videos, hr0, hf] at hlen

/-- Witness for C10: with no hardware mode and an encoder that times
out, exactly one command is invoked and the error propagates. -/
theorem C10_software_mode_no_retry_witness :
    (∃ msg, (VideoProcessor.process_videos none
      (fun _ => RunResult.timeoutExpired) ("a.mp4") ("b.mp4") ("out.mp4")
      ("16:9 Side by side") ⟨1280, 720, 5, 30, true⟩ ⟨1280, 720, 5, 30, true⟩
      false 5 ("video 1") QualityPreset.fast (some 8)).1 =
        Except.error msg) ∧
    (VideoProcessor.process_videos none (fun _ => RunResult.timeoutExpired)
      ("a.mp4") ("b.mp4") ("out.mp4") ("16:9 Side by side")
      ⟨1280, 720, 5, 30, true⟩ ⟨1280, 720, 5, 30, true⟩ false 5 ("video 1")
      QualityPreset.fast (some 8)).2 =
      [VideoProcessor.build_ffmpeg_command ("a.mp4") ("b.mp4") ("out.mp4")
        ("16:9 Side by side") ⟨1280, 720, 5, 30, true⟩ ⟨1280, 720, 5, 30, true⟩
        false 5 ("video 1") QualityPreset.fast none (some 8)] :=
  (C10_software_mode_no_retry ("a.mp4") ("b.mp4") ("out.mp4")
    ("16:9 Side by side") ⟨1280, 720, 5, 30, true⟩ ⟨1280, 720, 5, 30, true⟩
    false 5 ("video 1") QualityPreset.fast (some 8)
    (fun _ => RunResult.timeoutExpired) _ _ rfl rfl).1 (by decide)

/-- Counterexample to C7 as stated: the frame-rate string `"0"` parses
cleanly as a number (CPython `float("0")` is `0.0`), so `_parse_fps`
returns the parsed value `0`, which is not positive — refuting the claim
that `_parse_fps` returns a positive value for every string. -/
theorem C7_counterexample :
    VideoProcessor.parse_fps ("0") = 0 ∧
    ¬ 0 < VideoProcessor.parse_fps ("0") := by decide

/-- C7 (amended): for every frame-rate string, `_parse_fps` returns the
default frame rate (30) whenever the string is unparseable as a number
or has a zero denominator in its `N/D` ratio form, and otherwise returns
the parsed value; that value is positive whenever the string denotes a
positive number (but not for every string, e.g. `"0"` or `"-5"`). -/
theorem C7_parse_fps (fps_string : String) :
    (∀ v, fps_parse_result fps_string = some v →
      VideoProcessor.parse_fps fps_string = v) ∧
    (fps_parse_result fps_string = none →
      VideoProcessor.parse_fps fps_string = (DEFAULT_FPS : ℚ)) ∧
    (∀ v, fps_parse_result fps_string = some v → 0 < v →
      0 < VideoProcessor.parse_fps fps_string) := by
  cases hc : fps_string.data.contains '/' with
  | false =>
    have hm : '/' ∉ fps_string.data := by simpa using hc
    cases hp : pyFloat? fps_string.data <;>
      simp [VideoProcessor.parse_fps, fps_parse_result, hm, hp]
  | true =>
    have hm : '/' ∈ fps_string.data := by simpa using hc
    rcases hs : splitOnChar '/' fps_string.data with _ | ⟨num, rest⟩
    · simp [VideoProcessor.parse_fps, fps_parse_result, hm, hs]
    rcases rest with _ | ⟨den, rest2⟩
    · simp [VideoProcessor.parse_fps, fps_parse_result, hm, hs]
    rcases rest2 with _ | ⟨x, rest3⟩
    · cases hn : pyFloat? num with
      | none =>
        simp [VideoProcessor.parse_fps, fps_parse_result, hm, hs, hn]
      | some n =>
        cases hd : pyFloat? den with
        | none =>
          simp [VideoProcessor.parse_fps, fps_parse_result, hm, hs, hn, hd]
        | some d =>
          by_cases hd0 : d = 0 <;>
            simp [VideoProcessor.parse_fps, fps_parse_result, hm, hs, hn, hd,
              hd0]
    · simp [VideoProcessor.parse_fps, fps_parse_result, hm, hs]

/-- Witness for C7 at the NTSC frame-rate string. -/
theorem C7_parse_fps_witness :
    VideoProcessor.parse_fps ("24000/1001") = 24000 / 1001 ∧
    0 < VideoProcessor.parse_fps ("24000/1001") :=
  ⟨(C7_parse_fps ("24000/1001")).1 (24000 / 1001) (by decide),
   (C7_parse_fps ("24000/1001")).2.2 (24000 / 1001) (by decide) (by decide)⟩

/-- C8: the public predict operation raises an error when the encoder
run reports success but the declared output path does not exist, and on
every error path (probe failure, encoding failure, or missing artifact)
the output artifact is gone by the time the error propagates to the
caller: no failed invocation leaves an output artifact behind. -/
theorem C8_error_cleanup (probe1 probe2 : Except String VideoInfo)
    (process_result : Except String Bool)
    (output_exists_after_process : Bool) (output_path : String) :
    (process_result = Except.ok true → output_exists_after_process = false →
      ∃ msg, (Predictor.predict probe1 probe2 process_result
        output_exists_after_process output_path).1 =
        PredictOutcome.error msg) ∧
    (∀ msg, (Predictor.predict probe1 probe2 process_result
        output_exists_after_process output_path).1 =
        PredictOutcome.error msg →
      (Predictor.predict probe1 probe2 process_result
        output_exists_after_process output_path).2 = false) := by
  rcases probe1 with e1 | v1
  · exact ⟨fun _ _ => ⟨e1, rfl⟩, fun _ _ => rfl⟩
  rcases probe2 with e2 | v2
  · exact ⟨fun _ _ => ⟨e2, rfl⟩, fun _ _ => rfl⟩
  rcases process_result with ep | sp
  · exact ⟨fun h => (nomatch h), fun _ _ => rfl⟩
  cases sp
  · refine ⟨fun h => (nomatch h), fun _ _ => ?_⟩
    simp [Predictor.predict]
  · cases output_exists_after_process
    · exact ⟨fun _ _ => ⟨"Video processing failed",
        by simp [Predictor.predict]⟩,
        fun _ _ => by simp [Predictor.predict]⟩
    · refine ⟨fun _ h => (nomatch h), fun msg h => ?_⟩
      simp [Predictor.predict] at h

/-- Witness for C8: probes succeed, the encoder reports success, but the
artifact is missing — predict errors and no artifact remains. -/
theorem C8_error_cleanup_witness :
    (∃ msg, (Predictor.predict (Except.ok ⟨1280, 720, 5, 30, true⟩)
      (Except.ok ⟨1280, 720, 5, 30, true⟩) (Except.ok true) false
      ("out.mp4")).1 = PredictOutcome.error msg) ∧
    (Predictor.predict (Except.ok ⟨1280, 720, 5, 30, true⟩)
      (Except.ok ⟨1280, 720, 5, 30, true⟩) (Except.ok true) false
      ("out.mp4")).2 = false :=
  ⟨(C8_error_cleanup (Except.ok ⟨1280, 720, 5, 30, true⟩)
      (Except.ok ⟨1280, 720, 5, 30, true⟩) (Except.ok true) false
      ("out.mp4")).1 rfl rfl,
   (C8_error_cleanup (Except.ok ⟨1280, 720, 5, 30, true⟩)
      (Except.ok ⟨1280, 720, 5, 30, true⟩) (Except.ok true) false
      ("out.mp4")).2 ("Video processing failed") (by decide)⟩
